import Mathlib

/-!
# OpenSL ES audio driver (`addons/audio/opensl.c`): a shallow embedding

The driver is modelled function by function.

* C `int` values are integers; `+`, `-` and `*` on them wrap around modulo
  `2^32` into the two's-complement range (`wrap32`), `/` truncates towards
  zero and has no result where the division traps (a zero divisor, or
  `INT_MIN / -1`).
* A function whose C code may stop without returning (a trapping division, a
  call through a `NULL` or unset interface pointer) returns an `Option`:
  `none` is "does not return".
* A field of a C struct that the code may leave unassigned is an `Option`:
  `none` is "never written".
* The native OpenSL ES calls are not part of the driver: each function that
  makes some takes the results of those calls as an argument and records the
  calls it issues in a trace.
-/

namespace OpenSL

/-! ## C `int` arithmetic -/

/-- Largest value of a C `int` (32 bits). -/
def INT_MAX : Int := 2147483647

/-- Smallest value of a C `int` (32 bits). -/
def INT_MIN : Int := -2147483648

/-- Reduction of an integer into the range of a 32-bit two's-complement `int`. -/
def wrap32 (x : Int) : Int := (x + 2147483648) % 4294967296 - 2147483648

/-- The value is representable as a C `int`. -/
def IsInt (x : Int) : Prop := INT_MIN ≤ x ∧ x ≤ INT_MAX

instance (x : Int) : Decidable (IsInt x) := by
  unfold IsInt; exact inferInstance

/-- C `a + b` on `int`. -/
def int_add (a b : Int) : Int := wrap32 (a + b)

/-- C `a - b` on `int`. -/
def int_sub (a b : Int) : Int := wrap32 (a - b)

/-- C `a * b` on `int`. -/
def int_mul (a b : Int) : Int := wrap32 (a * b)

/-- C `a / b` on `int`: truncating division. There is no result where the
division traps: for a zero divisor and for `INT_MIN / -1`, whose quotient is
not an `int`. -/
def int_div (a b : Int) : Option Int :=
  if b = 0 ∨ (a = INT_MIN ∧ b = -1) then none else some (Int.tdiv a b)

/-! ## Per-voice data and the buffer queue -/

/-- The struct `OpenSLData`. Handles and the sample pointer are abstract
numbers, `none` being `NULL`. -/
structure OpenSLData where
  output : Option Nat
  player : Option Nat
  data : Option Nat
  position : Int
  length : Int
  frame_size : Int
deriving DecidableEq, Repr

/-- The three `int` fields hold `int` values. -/
def OpenSLData.WellTyped (d : OpenSLData) : Prop :=
  IsInt d.position ∧ IsInt d.length ∧ IsInt d.frame_size

instance (d : OpenSLData) : Decidable d.WellTyped := by
  unfold OpenSLData.WellTyped; exact inferInstance

/-- One call `Enqueue(queue, (char*) base + offset, size)`: the sample pointer,
the byte offset added to it and the `int` passed as the size. -/
structure Buffer where
  base : Option Nat
  offset : Int
  size : Int
deriving DecidableEq, Repr

/-- The buffer queue, as the list of `Enqueue` calls made on it, oldest first. -/
abbrev BufferQueue := List Buffer

/-- The native `Enqueue`: appends one buffer (its result code is discarded by
the caller). -/
def Enqueue (queue : BufferQueue) (b : Buffer) : BufferQueue := queue ++ [b]

/-- Sum of the sizes of the buffers in a queue. -/
def totalBytes (queue : BufferQueue) : Int := (queue.map Buffer.size).sum

/-- The refill callback `updateQueue(queue, context)`. The result is `none`
when the division in the tail branch traps. -/
def updateQueue (queue : BufferQueue) (data : OpenSLData) :
    Option (BufferQueue × OpenSLData) :=
  if data.position < data.length then do
    let chunk := int_mul data.frame_size 1024
    let bytes ←
      if int_add data.position chunk > data.length then
        (int_div (int_sub data.length data.position) data.frame_size).map
          (fun q => int_mul q data.frame_size)
      else
        pure chunk
    pure (Enqueue queue ⟨data.data, data.position, bytes⟩,
          { data with position := int_add data.position bytes })
  else
    pure (queue, data)

/-- The callback invoked `n` times in a row. -/
def updateQueueN : Nat → BufferQueue → OpenSLData → Option (BufferQueue × OpenSLData)
  | 0, queue, data => some (queue, data)
  | n + 1, queue, data =>
    (updateQueueN n queue data).bind (fun r => updateQueue r.1 r.2)

/-- The driver entry `_opensl_load_voice`, on the voice's `OpenSLData`. -/
def _opensl_load_voice (extra : OpenSLData) (data : Option Nat) : Int × OpenSLData :=
  (0, { extra with data := data, position := 0 })

/-- The per-voice data right after `_opensl_load_voice`. -/
def loadedVoice (extra : OpenSLData) (data : Option Nat) : OpenSLData :=
  (_opensl_load_voice extra data).2

/-- The driver entry `_opensl_unload_voice`, on the voice's `OpenSLData`. -/
def _opensl_unload_voice (extra : OpenSLData) : OpenSLData :=
  { extra with data := none, position := 0 }

/-- The size of the buffer one refill enqueues, as the contract of the
callback words it, over the integers: a full chunk of `frame_size*1024` bytes
when `position + frame_size*1024 <= length`, and
`((length - position) / frame_size) * frame_size`, with truncating division,
otherwise. -/
def contractBytes (position length frame_size : Int) : Int :=
  if position + frame_size * 1024 ≤ length then
    frame_size * 1024
  else
    Int.tdiv (length - position) frame_size * frame_size

/-- The contract of one refill, over the integers: before the end exactly one
buffer of `contractBytes` bytes is enqueued at the cursor and the cursor
advances by that number; at or past the end nothing is enqueued and nothing
changes; in both cases `data`, `length` and `frame_size` are as before. -/
def RefillContract (queue : BufferQueue) (s : OpenSLData) : Prop :=
  (s.position < s.length →
    updateQueue queue s =
      some (queue ++ [⟨s.data, s.position,
              contractBytes s.position s.length s.frame_size⟩],
            { s with position :=
                (s.position + contractBytes s.position s.length s.frame_size) })) ∧
  (s.length ≤ s.position → updateQueue queue s = some (queue, s)) ∧
  (∃ r, updateQueue queue s = some r ∧ r.2.data = s.data ∧ r.2.length = s.length ∧
    r.2.frame_size = s.frame_size)

/-! ## Voices and the PCM format descriptor -/

/-- Modelled from the spec: the enumerators of the host library's sample-depth
type `ALLEGRO_AUDIO_DEPTH` (its header is not among the sources): signed 8, 16
and 24 bit, 32-bit float, and the unsigned variants, which carry the flag
`0x08`. -/
def ALLEGRO_AUDIO_DEPTH_INT8 : Nat := 0x00

/-- Modelled from the spec: see `ALLEGRO_AUDIO_DEPTH_INT8`. -/
def ALLEGRO_AUDIO_DEPTH_INT16 : Nat := 0x01

/-- Modelled from the spec: see `ALLEGRO_AUDIO_DEPTH_INT8`. -/
def ALLEGRO_AUDIO_DEPTH_INT24 : Nat := 0x02

/-- Modelled from the spec: see `ALLEGRO_AUDIO_DEPTH_INT8`. -/
def ALLEGRO_AUDIO_DEPTH_FLOAT32 : Nat := 0x03

/-- Modelled from the spec: see `ALLEGRO_AUDIO_DEPTH_INT8`. -/
def ALLEGRO_AUDIO_DEPTH_UINT8 : Nat := 0x08

/-- Modelled from the spec: see `ALLEGRO_AUDIO_DEPTH_INT8`. -/
def ALLEGRO_AUDIO_DEPTH_UINT16 : Nat := 0x09

/-- Modelled from the spec: see `ALLEGRO_AUDIO_DEPTH_INT8`. -/
def ALLEGRO_AUDIO_DEPTH_UINT24 : Nat := 0x0A

/-- Modelled from the spec: the enumerators of the host library's channel
configuration type `ALLEGRO_CHANNEL_CONF` (its header is not among the
sources), mono through 7.1. The high nibble counts the main channels, the low
nibble the low-frequency channels. -/
def ALLEGRO_CHANNEL_CONF_1 : Nat := 0x10

/-- Modelled from the spec: see `ALLEGRO_CHANNEL_CONF_1`. -/
def ALLEGRO_CHANNEL_CONF_2 : Nat := 0x20

/-- Modelled from the spec: see `ALLEGRO_CHANNEL_CONF_1`. -/
def ALLEGRO_CHANNEL_CONF_3 : Nat := 0x30

/-- Modelled from the spec: see `ALLEGRO_CHANNEL_CONF_1`. -/
def ALLEGRO_CHANNEL_CONF_4 : Nat := 0x40

/-- Modelled from the spec: see `ALLEGRO_CHANNEL_CONF_1`. -/
def ALLEGRO_CHANNEL_CONF_5_1 : Nat := 0x51

/-- Modelled from the spec: see `ALLEGRO_CHANNEL_CONF_1`. -/
def ALLEGRO_CHANNEL_CONF_6_1 : Nat := 0x61

/-- Modelled from the spec: see `ALLEGRO_CHANNEL_CONF_1`. -/
def ALLEGRO_CHANNEL_CONF_7_1 : Nat := 0x71

/-- Modelled from the spec: the host library's `al_get_channel_count` (not
among the sources), the number of channels of a configuration: its main
channels plus its low-frequency channels. -/
def al_get_channel_count (conf : Nat) : Nat := (conf >>> 4) + (conf &&& 0xF)

/-- Modelled from the spec: the host library's `al_get_audio_depth_size` (not
among the sources), the bytes per sample of a depth: 1 for 8 bit, 2 for 16
bit, 4 for 24 bit (kept in 32) and for float, 0 for a value outside the
enumeration. -/
def al_get_audio_depth_size (depth : Nat) : Nat :=
  if depth = ALLEGRO_AUDIO_DEPTH_INT8 ∨ depth = ALLEGRO_AUDIO_DEPTH_UINT8 then 1
  else if depth = ALLEGRO_AUDIO_DEPTH_INT16 ∨ depth = ALLEGRO_AUDIO_DEPTH_UINT16 then 2
  else if depth = ALLEGRO_AUDIO_DEPTH_INT24 ∨ depth = ALLEGRO_AUDIO_DEPTH_UINT24 then 4
  else if depth = ALLEGRO_AUDIO_DEPTH_FLOAT32 then 4
  else 0

/-- Modelled from the spec: the speaker-position bits of the OpenSL ES header
(not among the sources), one bit per speaker. -/
def SL_SPEAKER_FRONT_LEFT : Nat := 0x00000001

/-- Modelled from the spec: see `SL_SPEAKER_FRONT_LEFT`. -/
def SL_SPEAKER_FRONT_RIGHT : Nat := 0x00000002

/-- Modelled from the spec: see `SL_SPEAKER_FRONT_LEFT`. -/
def SL_SPEAKER_FRONT_CENTER : Nat := 0x00000004

/-- Modelled from the spec: see `SL_SPEAKER_FRONT_LEFT`. -/
def SL_SPEAKER_LOW_FREQUENCY : Nat := 0x00000008

/-- Modelled from the spec: see `SL_SPEAKER_FRONT_LEFT`. -/
def SL_SPEAKER_BACK_LEFT : Nat := 0x00000010

/-- Modelled from the spec: see `SL_SPEAKER_FRONT_LEFT`. -/
def SL_SPEAKER_BACK_RIGHT : Nat := 0x00000020

/-- Modelled from the spec: see `SL_SPEAKER_FRONT_LEFT`. -/
def SL_SPEAKER_SIDE_LEFT : Nat := 0x00000200

/-- Modelled from the spec: see `SL_SPEAKER_FRONT_LEFT`. -/
def SL_SPEAKER_SIDE_RIGHT : Nat := 0x00000400

/-- Modelled from the spec: see `SL_SPEAKER_FRONT_LEFT`. -/
def SL_SPEAKER_TOP_CENTER : Nat := 0x00000800

/-- Modelled from the spec: the sampling-rate constants of the OpenSL ES header
(not among the sources), in milliHertz. -/
def SL_SAMPLINGRATE_8 : Nat := 8000000

/-- Modelled from the spec: see `SL_SAMPLINGRATE_8`. -/
def SL_SAMPLINGRATE_11_025 : Nat := 11025000

/-- Modelled from the spec: see `SL_SAMPLINGRATE_8`. -/
def SL_SAMPLINGRATE_12 : Nat := 12000000

/-- Modelled from the spec: see `SL_SAMPLINGRATE_8`. -/
def SL_SAMPLINGRATE_16 : Nat := 16000000

/-- Modelled from the spec: see `SL_SAMPLINGRATE_8`. -/
def SL_SAMPLINGRATE_22_05 : Nat := 22050000

/-- Modelled from the spec: see `SL_SAMPLINGRATE_8`. -/
def SL_SAMPLINGRATE_24 : Nat := 24000000

/-- Modelled from the spec: see `SL_SAMPLINGRATE_8`. -/
def SL_SAMPLINGRATE_32 : Nat := 32000000

/-- Modelled from the spec: see `SL_SAMPLINGRATE_8`. -/
def SL_SAMPLINGRATE_44_1 : Nat := 44100000

/-- Modelled from the spec: see `SL_SAMPLINGRATE_8`. -/
def SL_SAMPLINGRATE_48 : Nat := 48000000

/-- Modelled from the spec: see `SL_SAMPLINGRATE_8`. -/
def SL_SAMPLINGRATE_64 : Nat := 64000000

/-- Modelled from the spec: see `SL_SAMPLINGRATE_8`. -/
def SL_SAMPLINGRATE_88_2 : Nat := 88200000

/-- Modelled from the spec: see `SL_SAMPLINGRATE_8`. -/
def SL_SAMPLINGRATE_96 : Nat := 96000000

/-- Modelled from the spec: see `SL_SAMPLINGRATE_8`. -/
def SL_SAMPLINGRATE_192 : Nat := 192000000

/-- Modelled from the spec: the PCM format tag of the OpenSL ES header (not
among the sources). -/
def SL_DATAFORMAT_PCM : Nat := 0x00000002

/-- Modelled from the spec: the little-endian byte-order tag of the OpenSL ES
header (not among the sources). -/
def SL_BYTEORDER_LITTLEENDIAN : Nat := 0x00000002

/-- The fields of `ALLEGRO_VOICE` the driver reads; the per-voice `extra` data
is passed to the driver functions next to the voice. -/
structure ALLEGRO_VOICE where
  depth : Nat
  chan_conf : Nat
  frequency : Nat
  buffer_size : Nat
deriving DecidableEq, Repr

/-- The struct `SLDataFormat_PCM`. The four fields assigned inside a `switch`
are `none` as long as nothing was assigned to them. -/
structure SLDataFormat_PCM where
  formatType : Nat
  numChannels : Nat
  samplesPerSec : Option Nat
  bitsPerSample : Option Nat
  containerSize : Option Nat
  channelMask : Option Nat
  endianness : Nat
deriving DecidableEq, Repr

/-- The function `setupFormat(voice)`: the three `switch` statements, each
`default` branch assigning nothing. -/
def setupFormat (voice : ALLEGRO_VOICE) : SLDataFormat_PCM :=
  let numChannels := al_get_channel_count voice.chan_conf
  let channelMask : Option Nat :=
    if voice.chan_conf = ALLEGRO_CHANNEL_CONF_1 then
      some SL_SPEAKER_FRONT_CENTER
    else if voice.chan_conf = ALLEGRO_CHANNEL_CONF_2 then
      some (SL_SPEAKER_FRONT_LEFT ||| SL_SPEAKER_FRONT_RIGHT)
    else if voice.chan_conf = ALLEGRO_CHANNEL_CONF_3 then
      some (SL_SPEAKER_FRONT_LEFT ||| SL_SPEAKER_FRONT_RIGHT ||| SL_SPEAKER_FRONT_CENTER)
    else if voice.chan_conf = ALLEGRO_CHANNEL_CONF_4 then
      some (SL_SPEAKER_FRONT_LEFT ||| SL_SPEAKER_BACK_LEFT ||| SL_SPEAKER_FRONT_RIGHT |||
            SL_SPEAKER_BACK_RIGHT)
    else if voice.chan_conf = ALLEGRO_CHANNEL_CONF_5_1 then
      some (SL_SPEAKER_FRONT_LEFT ||| SL_SPEAKER_BACK_LEFT ||| SL_SPEAKER_FRONT_RIGHT |||
            SL_SPEAKER_BACK_RIGHT ||| SL_SPEAKER_FRONT_CENTER ||| SL_SPEAKER_LOW_FREQUENCY)
    else if voice.chan_conf = ALLEGRO_CHANNEL_CONF_6_1 then
      some (SL_SPEAKER_FRONT_LEFT ||| SL_SPEAKER_BACK_LEFT ||| SL_SPEAKER_FRONT_RIGHT |||
            SL_SPEAKER_BACK_RIGHT ||| SL_SPEAKER_FRONT_CENTER ||| SL_SPEAKER_LOW_FREQUENCY |||
            SL_SPEAKER_SIDE_LEFT ||| SL_SPEAKER_SIDE_RIGHT)
    else if voice.chan_conf = ALLEGRO_CHANNEL_CONF_7_1 then
      some (SL_SPEAKER_FRONT_LEFT ||| SL_SPEAKER_BACK_LEFT ||| SL_SPEAKER_FRONT_RIGHT |||
            SL_SPEAKER_BACK_RIGHT ||| SL_SPEAKER_FRONT_CENTER ||| SL_SPEAKER_LOW_FREQUENCY |||
            SL_SPEAKER_SIDE_LEFT ||| SL_SPEAKER_SIDE_RIGHT ||| SL_SPEAKER_TOP_CENTER)
    else none
  let samplesPerSec : Option Nat :=
    if voice.frequency = 8000 then some SL_SAMPLINGRATE_8
    else if voice.frequency = 11025 then some SL_SAMPLINGRATE_11_025
    else if voice.frequency = 12000 then some SL_SAMPLINGRATE_12
    else if voice.frequency = 16000 then some SL_SAMPLINGRATE_16
    else if voice.frequency = 22050 then some SL_SAMPLINGRATE_22_05
    else if voice.frequency = 24000 then some SL_SAMPLINGRATE_24
    else if voice.frequency = 32000 then some SL_SAMPLINGRATE_32
    else if voice.frequency = 44100 then some SL_SAMPLINGRATE_44_1
    else if voice.frequency = 48000 then some SL_SAMPLINGRATE_48
    else if voice.frequency = 64000 then some SL_SAMPLINGRATE_64
    else if voice.frequency = 88200 then some SL_SAMPLINGRATE_88_2
    else if voice.frequency = 96000 then some SL_SAMPLINGRATE_96
    else if voice.frequency = 192000 then some SL_SAMPLINGRATE_192
    else none
  let bits : Option Nat × Option Nat :=
    if voice.depth = ALLEGRO_AUDIO_DEPTH_UINT8 ∨ voice.depth = ALLEGRO_AUDIO_DEPTH_INT8 then
      (some 8, some 8)
    else if voice.depth = ALLEGRO_AUDIO_DEPTH_UINT16 ∨
        voice.depth = ALLEGRO_AUDIO_DEPTH_INT16 then
      (some 16, some 16)
    else if voice.depth = ALLEGRO_AUDIO_DEPTH_UINT24 ∨
        voice.depth = ALLEGRO_AUDIO_DEPTH_INT24 then
      (some 24, some 32)
    else if voice.depth = ALLEGRO_AUDIO_DEPTH_FLOAT32 then
      (some 32, some 32)
    else (none, none)
  { formatType := SL_DATAFORMAT_PCM
    numChannels := numChannels
    samplesPerSec := samplesPerSec
    bitsPerSample := bits.1
    containerSize := bits.2
    channelMask := channelMask
    endianness := SL_BYTEORDER_LITTLEENDIAN }

/-- The driver entry `_opensl_allocate_voice`. `output` is what
`createOutputMixer(getEngine(engine))` returned; the result is the return code
and the `OpenSLData` stored in `voice->extra`, if any. -/
def _opensl_allocate_voice (output : Option Nat) (voice : ALLEGRO_VOICE) :
    Int × Option OpenSLData :=
  match output with
  | none => (1, none)
  | some mixer =>
    (0, some
      { output := some mixer
        player := none
        data := none
        position := 0
        length := wrap32 voice.buffer_size
        frame_size := wrap32 ((al_get_channel_count voice.chan_conf *
          al_get_audio_depth_size voice.depth : Nat) : Int) })

/-- The seven sample depths of the host library. -/
def knownDepths : List Nat :=
  [ALLEGRO_AUDIO_DEPTH_INT8, ALLEGRO_AUDIO_DEPTH_INT16, ALLEGRO_AUDIO_DEPTH_INT24,
   ALLEGRO_AUDIO_DEPTH_FLOAT32, ALLEGRO_AUDIO_DEPTH_UINT8, ALLEGRO_AUDIO_DEPTH_UINT16,
   ALLEGRO_AUDIO_DEPTH_UINT24]

/-- The thirteen frequencies, in Hz, `setupFormat` knows. -/
def supportedRates : List Nat :=
  [8000, 11025, 12000, 16000, 22050, 24000, 32000, 44100, 48000, 64000, 88200, 96000,
   192000]

/-- Number of bits set among the 32 bits of a channel mask. -/
def maskBits (mask : Nat) : Nat :=
  ((List.range 32).filter (fun i => mask.testBit i)).length

/-! ## The native API and the driver entries that call it -/

/-- Result code of a native call (`SLresult`). -/
abbrev SLresult := Nat

/-- Modelled from the spec: the success code of the OpenSL ES header (not
among the sources); every other code is an error. -/
def SL_RESULT_SUCCESS : SLresult := 0

/-- Modelled from the spec: the object states of the OpenSL ES header (not
among the sources). -/
def SL_OBJECT_STATE_UNREALIZED : Nat := 1

/-- Modelled from the spec: see `SL_OBJECT_STATE_UNREALIZED`. -/
def SL_OBJECT_STATE_REALIZED : Nat := 2

/-- Modelled from the spec: see `SL_OBJECT_STATE_UNREALIZED`. -/
def SL_OBJECT_STATE_SUSPENDED : Nat := 3

/-- Modelled from the spec: the play state "playing" of the OpenSL ES header
(not among the sources). -/
def SL_PLAYSTATE_PLAYING : Nat := 3

/-- The interface identifiers the driver asks for. -/
inductive InterfaceID where
  | SL_IID_ENGINE
  | SL_IID_VOLUME
  | SL_IID_BUFFERQUEUE
  | SL_IID_PLAY
deriving DecidableEq, Repr

/-- One call into the native API, with the arguments the driver chooses. -/
inductive NativeCall where
  | slCreateEngine
  | GetState
  | Realize
  | Resume
  | Destroy
  | GetInterface (iid : InterfaceID)
  | CreateAudioPlayer (format : SLDataFormat_PCM) (numBuffers : Nat) (outputMix : Option Nat)
  | RegisterCallback
  | SetPlayState (state : Nat)
deriving DecidableEq, Repr

/-- The state of the driver outside the voices: the global `engine` handle and
the native calls made so far, oldest first. -/
structure Driver where
  engine : Option Nat
  calls : List NativeCall
deriving DecidableEq, Repr

/-- What a driver entry leaves behind: its return value, the driver state, the
voice and the per-voice data. -/
structure Outcome (α : Type) where
  ret : α
  driver : Driver
  voice : ALLEGRO_VOICE
  extra : OpenSLData
deriving DecidableEq, Repr

/-- What the native calls of `_opensl_open` answer: the result of
`slCreateEngine` and the object it writes, the result of `GetState` and the
state it writes, and the results of `Realize` and `Resume`. -/
structure OpenResults where
  createEngine : SLresult
  engine : Nat
  getState : SLresult
  state : Nat
  realize : SLresult
  resume : SLresult
deriving DecidableEq, Repr

/-- The driver entry `_opensl_open`. The local `result` is kept as in the
source: it receives the result of `Realize` or `Resume` and is not read again. -/
def _opensl_open (r : OpenResults) (d : Driver) : Int × Driver :=
  let result := r.createEngine
  let d := { d with
    engine := if result = SL_RESULT_SUCCESS then some r.engine else d.engine
    calls := d.calls ++ [NativeCall.slCreateEngine] }
  if result ≠ SL_RESULT_SUCCESS then
    (1, d)
  else
    let result := r.getState
    let d := { d with calls := d.calls ++ [NativeCall.GetState] }
    if result = SL_RESULT_SUCCESS then
      let step : SLresult × Driver :=
        if r.state = SL_OBJECT_STATE_UNREALIZED then
          (r.realize, { d with calls := d.calls ++ [NativeCall.Realize] })
        else if r.state = SL_OBJECT_STATE_REALIZED then
          (result, d)
        else if r.state = SL_OBJECT_STATE_SUSPENDED then
          (r.resume, { d with calls := d.calls ++ [NativeCall.Resume] })
        else
          (result, d)
      (0, step.2)
    else
      (1, d)

/-- The driver entry `_opensl_close`. -/
def _opensl_close (d : Driver) : Driver :=
  match d.engine with
  | some _ => { engine := none, calls := d.calls ++ [NativeCall.Destroy] }
  | none => d

/-- What the native calls of `_opensl_start_voice` answer, in the order they
are made: the lookup of the engine interface, `CreateAudioPlayer` and the
object it writes, `Realize` on the player, the lookup of the buffer-queue
interface, `RegisterCallback`, the lookup of the play interface and
`SetPlayState`. -/
structure StartResults where
  getEngine : SLresult
  createAudioPlayer : SLresult
  player : Nat
  realizePlayer : SLresult
  getBufferQueue : SLresult
  registerCallback : SLresult
  getPlay : SLresult
  setPlayState : SLresult
deriving DecidableEq, Repr

/-- Modelled from the spec: one of the error codes of the OpenSL ES header (not
among the sources), "preconditions violated", which a lookup on an object that
is not realized answers. -/
def SL_RESULT_PRECONDITIONS_VIOLATED : SLresult := 0x00000001

/-- The helper `getEngine(engine)`: the engine interface, or `NULL` (inner
`none`) when the lookup fails. The interface obtained is identified with the
object. The lookup is a call through the global `engine`: with `engine` being
`NULL` the helper does not return. -/
def getEngine (result : SLresult) (d : Driver) : Option (Option Nat × Driver) :=
  match d.engine with
  | none => none
  | some engine =>
    let d := { d with
      calls := d.calls ++ [NativeCall.GetInterface InterfaceID.SL_IID_ENGINE] }
    if result = SL_RESULT_SUCCESS then some (some engine, d) else some (none, d)

/-- The helper `createAudioPlayer(engine, source, sink)`: the realized player,
or `NULL` (inner `none`) when creation or realization fails. `CreateAudioPlayer`
is a call through the engine interface, which the helper does not test: with
the `NULL` that `getEngine` returns on a failed lookup it does not return. -/
def createAudioPlayer (r : StartResults) (engine : Option Nat)
    (format : SLDataFormat_PCM) (numBuffers : Nat) (outputMix : Option Nat) (d : Driver) :
    Option (Option Nat × Driver) :=
  match engine with
  | none => none
  | some _ =>
    let result := r.createAudioPlayer
    let d := { d with
      calls := d.calls ++ [NativeCall.CreateAudioPlayer format numBuffers outputMix] }
    if result ≠ SL_RESULT_SUCCESS then
      some (none, d)
    else
      let result := r.realizePlayer
      let d := { d with calls := d.calls ++ [NativeCall.Realize] }
      if result ≠ SL_RESULT_SUCCESS then some (none, d) else some (some r.player, d)

/-- The driver entry `_opensl_start_voice`. The result of the buffer-queue
lookup is tested, that of `RegisterCallback` is dropped, and that of the
play-interface lookup is not tested: `SetPlayState` is a call through `play`,
which a failed lookup leaves unset, and then the entry does not return. The
result of `SetPlayState` is read for the debug message only. -/
def _opensl_start_voice (r : StartResults) (d : Driver) (voice : ALLEGRO_VOICE)
    (extra : OpenSLData) : Option (Outcome Int) := do
  let format := setupFormat voice
  let numBuffers := 2
  let e ← getEngine r.getEngine d
  let p ← createAudioPlayer r e.1 format numBuffers extra.output e.2
  let extra := { extra with player := p.1 }
  let d := p.2
  if extra.player = none then
    pure ⟨1, d, voice, extra⟩
  else
    let result := r.getBufferQueue
    let d := { d with
      calls := d.calls ++ [NativeCall.GetInterface InterfaceID.SL_IID_BUFFERQUEUE] }
    if result ≠ SL_RESULT_SUCCESS then
      pure ⟨1, d, voice, extra⟩
    else
      let _result := r.registerCallback
      let d := { d with calls := d.calls ++ [NativeCall.RegisterCallback] }
      let result := r.getPlay
      let d := { d with
        calls := d.calls ++ [NativeCall.GetInterface InterfaceID.SL_IID_PLAY] }
      if result ≠ SL_RESULT_SUCCESS then
        none
      else
        let _result := r.setPlayState
        let d := { d with
          calls := d.calls ++ [NativeCall.SetPlayState SL_PLAYSTATE_PLAYING] }
        pure ⟨1, d, voice, extra⟩

/-- The driver entry `_opensl_stop_voice`: a stub that logs and returns 1. -/
def _opensl_stop_voice (d : Driver) (voice : ALLEGRO_VOICE) (extra : OpenSLData) :
    Outcome Int :=
  ⟨1, d, voice, extra⟩

/-- The driver entry `_opensl_voice_is_playing`: a stub that logs and returns
`false`. -/
def _opensl_voice_is_playing (d : Driver) (voice : ALLEGRO_VOICE) (extra : OpenSLData) :
    Outcome Bool :=
  ⟨false, d, voice, extra⟩

/-- The driver entry `_opensl_get_voice_position`: a stub that logs and
returns 0. -/
def _opensl_get_voice_position (d : Driver) (voice : ALLEGRO_VOICE) (extra : OpenSLData) :
    Outcome Nat :=
  ⟨0, d, voice, extra⟩

/-- The driver entry `_opensl_set_voice_position`: a stub that logs and
returns 1. -/
def _opensl_set_voice_position (d : Driver) (voice : ALLEGRO_VOICE) (extra : OpenSLData)
    (_val : Nat) : Outcome Int :=
  ⟨1, d, voice, extra⟩

/-- What one refill promises about memory: it returns, the buffers it adds to
the queue (at most one) start at the cursor and lie inside
`[0, length)` of the sample data, the cursor stays between `0` and `length`,
and a cursor on a frame boundary stays on one. -/
def RefillSafe (queue : BufferQueue) (s : OpenSLData) : Prop :=
  ∃ added s', updateQueue queue s = some (queue ++ added, s') ∧
    added.length ≤ 1 ∧
    (∀ b ∈ added, b.base = s.data ∧ b.offset = s.position ∧ 0 ≤ b.size ∧
      s.position + b.size ≤ s.length ∧ s'.position = s.position + b.size) ∧
    0 ≤ s'.position ∧ s'.position ≤ s'.length ∧
    s'.length = s.length ∧ s'.frame_size = s.frame_size ∧
    (s.frame_size ∣ s.position → s.frame_size ∣ s'.position)

/-! ## Facts of `int` arithmetic -/

theorem wrap32_of_isInt {x : Int} (h : IsInt x) : wrap32 x = x := by
  unfold IsInt INT_MIN INT_MAX at h
  unfold wrap32
  omega

/-- A reduced value is an `int`. -/
theorem isInt_wrap32 (x : Int) : IsInt (wrap32 x) := by
  unfold IsInt INT_MIN INT_MAX wrap32
  omega

/-- C addition is addition when the sum is an `int`. -/
theorem int_add_of_isInt {a b : Int} (h : IsInt (a + b)) : int_add a b = a + b :=
  wrap32_of_isInt h

/-- C subtraction is subtraction when the difference is an `int`. -/
theorem int_sub_of_isInt {a b : Int} (h : IsInt (a - b)) : int_sub a b = a - b :=
  wrap32_of_isInt h

/-- C multiplication is multiplication when the product is an `int`. -/
theorem int_mul_of_isInt {a b : Int} (h : IsInt (a * b)) : int_mul a b = a * b :=
  wrap32_of_isInt h

/-- Truncating division of a non-negative `int` by a positive one: the
quotient and the product with the divisor stay between `0` and the dividend. -/
theorem tdiv_bounds {a b : Int} (ha : 0 ≤ a) (hb : 0 < b) :
    0 ≤ Int.tdiv a b ∧ Int.tdiv a b ≤ a ∧ 0 ≤ Int.tdiv a b * b ∧
      Int.tdiv a b * b ≤ a ∧ a < Int.tdiv a b * b + b := by
  rw [Int.tdiv_eq_ediv ha hb.le]
  have h1 : 0 ≤ a / b := Int.ediv_nonneg ha hb.le
  have h2 : a / b * b ≤ a := Int.ediv_mul_le a hb.ne'
  have h3 : a < (a / b + 1) * b := Int.lt_ediv_add_one_mul_self a hb
  have h4 : 0 ≤ a / b * b := mul_nonneg h1 hb.le
  have h5 : a / b ≤ a / b * b := le_mul_of_one_le_right h1 hb
  refine ⟨h1, by omega, h4, h2, ?_⟩
  linarith

/-- The callback with the cursor at or past the end does nothing. -/
theorem updateQueue_done (queue : BufferQueue) (s : OpenSLData)
    (h : s.length ≤ s.position) : updateQueue queue s = some (queue, s) := by
  unfold updateQueue
  rw [if_neg (not_lt.mpr h)]
  rfl

/-- The callback when a whole chunk fits before the end, nothing overflowing. -/
theorem updateQueue_full (queue : BufferQueue) (s : OpenSLData)
    (hF : 0 < s.frame_size) (hp : 0 ≤ s.position)
    (hfit : s.position + s.frame_size * 1024 ≤ s.length) (hL : s.length ≤ INT_MAX) :
    updateQueue queue s =
      some (queue ++ [⟨s.data, s.position, s.frame_size * 1024⟩],
            { s with position := s.position + s.frame_size * 1024 }) := by
  unfold INT_MAX at hL
  have e1 : int_mul s.frame_size 1024 = s.frame_size * 1024 :=
    int_mul_of_isInt (by unfold IsInt INT_MIN INT_MAX; omega)
  have e2 : int_add s.position (s.frame_size * 1024) = s.position + s.frame_size * 1024 :=
    int_add_of_isInt (by unfold IsInt INT_MIN INT_MAX; omega)
  have hlt : s.position < s.length := by omega
  have hn : ¬ s.position + s.frame_size * 1024 > s.length := by omega
  unfold updateQueue
  simp [hlt, e1, e2, hn, Enqueue]

/-- The callback when less than a chunk is left, nothing overflowing. -/
theorem updateQueue_tail (queue : BufferQueue) (s : OpenSLData)
    (hF : 0 < s.frame_size) (hp : 0 ≤ s.position) (hlt : s.position < s.length)
    (htail : s.length < s.position + s.frame_size * 1024)
    (hfit : s.position + s.frame_size * 1024 ≤ INT_MAX) :
    updateQueue queue s =
      some (queue ++ [⟨s.data, s.position,
              Int.tdiv (s.length - s.position) s.frame_size * s.frame_size⟩],
            { s with position := s.position +
                Int.tdiv (s.length - s.position) s.frame_size * s.frame_size }) := by
  unfold INT_MAX at hfit
  have e1 : int_mul s.frame_size 1024 = s.frame_size * 1024 :=
    int_mul_of_isInt (by unfold IsInt INT_MIN INT_MAX; omega)
  have e2 : int_add s.position (s.frame_size * 1024) = s.position + s.frame_size * 1024 :=
    int_add_of_isInt (by unfold IsInt INT_MIN INT_MAX; omega)
  have e3 : int_sub s.length s.position = s.length - s.position :=
    int_sub_of_isInt (by unfold IsInt INT_MIN INT_MAX; omega)
  obtain ⟨b1, b2, b3, b4, _⟩ := tdiv_bounds (show 0 ≤ s.length - s.position by omega) hF
  have e4 : ¬ (s.frame_size = 0 ∨ (s.length - s.position = INT_MIN ∧ s.frame_size = -1)) := by
    omega
  have e5 : int_mul (Int.tdiv (s.length - s.position) s.frame_size) s.frame_size =
      Int.tdiv (s.length - s.position) s.frame_size * s.frame_size :=
    int_mul_of_isInt (by unfold IsInt INT_MIN INT_MAX; omega)
  have e6 : int_add s.position
        (Int.tdiv (s.length - s.position) s.frame_size * s.frame_size) =
      s.position + Int.tdiv (s.length - s.position) s.frame_size * s.frame_size :=
    int_add_of_isInt (by unfold IsInt INT_MIN INT_MAX; omega)
  have hn : s.position + s.frame_size * 1024 > s.length := htail
  unfold updateQueue
  simp [hlt, e1, e2, e3, hn, int_div, e4, e5, e6, Enqueue]

/-- One more refill is a refill after the earlier ones. -/
theorem updateQueueN_succ (n : Nat) (queue : BufferQueue) (s : OpenSLData) :
    updateQueueN (n + 1) queue s =
      (updateQueueN n queue s).bind (fun r => updateQueue r.1 r.2) := rfl

/-- The bytes of two queues joined add up. -/
theorem totalBytes_append (q r : BufferQueue) :
    totalBytes (q ++ r) = totalBytes q + totalBytes r := by
  simp [totalBytes, List.map_append, List.sum_append]

/-- Writing the cursor back changes nothing. -/
theorem position_update_self (s : OpenSLData) : { s with position := s.position } = s := by
  cases s; rfl

/-- From a cursor on a frame boundary, the whole frames left are those up to
the last frame boundary of the buffer. -/
theorem aligned_tdiv {p l f : Int} (hf : 0 < f) (hdiv : f ∣ p) (hle : p ≤ l) :
    Int.tdiv (l - p) f * f = l / f * f - p := by
  obtain ⟨k, rfl⟩ := hdiv
  rw [Int.tdiv_eq_ediv (by omega) hf.le]
  have h : (l - f * k) / f = l / f - k := by
    have := Int.add_mul_ediv_left l (-k) hf.ne'
    rw [mul_neg, ← sub_eq_add_neg, ← sub_eq_add_neg] at this
    exact this
  rw [h]
  ring

/-- From a cursor on a frame boundary, a whole chunk that fits before the end
also ends at or before the last frame boundary. -/
theorem aligned_chunk_le {p l f : Int} (hf : 0 < f) (hdiv : f ∣ p)
    (hle : p + f * 1024 ≤ l) : p + f * 1024 ≤ l / f * f := by
  obtain ⟨k, rfl⟩ := hdiv
  have h1 : (k + 1024) * f ≤ l := by linarith
  have h2 : k + 1024 ≤ l / f := Int.le_ediv_of_mul_le hf h1
  have h3 : (k + 1024) * f ≤ l / f * f := mul_le_mul_of_nonneg_right h2 hf.le
  linarith

/-- One refill from a cursor on a frame boundary, when `length` plus a chunk is
an `int`: the cursor moves to the next chunk boundary or to the last frame
boundary, whichever is nearer, and the bytes enqueued are the distance moved. -/
theorem updateQueue_aligned (queue : BufferQueue) (s : OpenSLData)
    (hF : 0 < s.frame_size) (hp : 0 ≤ s.position)
    (hpT : s.position ≤ s.length / s.frame_size * s.frame_size)
    (hdiv : s.frame_size ∣ s.position)
    (hfit : s.length + s.frame_size * 1024 ≤ INT_MAX) :
    ∃ added, updateQueue queue s =
        some (queue ++ added,
          { s with position := (min (s.position + s.frame_size * 1024)
              (s.length / s.frame_size * s.frame_size)) }) ∧
      totalBytes added =
        min (s.position + s.frame_size * 1024)
          (s.length / s.frame_size * s.frame_size) - s.position ∧
      (s.position = s.length / s.frame_size * s.frame_size →
        s.position < s.length → added = [⟨s.data, s.position, 0⟩]) := by
  have hT1 : s.length / s.frame_size * s.frame_size ≤ s.length :=
    Int.ediv_mul_le _ hF.ne'
  have hC : 0 < s.frame_size * 1024 := by positivity
  have hT2 : s.length < s.length / s.frame_size * s.frame_size + s.frame_size := by
    have := Int.lt_ediv_add_one_mul_self s.length hF
    linarith
  rcases eq_or_lt_of_le (le_trans hpT hT1) with heq | hlt
  · refine ⟨[], ?_, ?_, ?_⟩
    · rw [List.append_nil, updateQueue_done queue s heq.ge]
      have hm : min (s.position + s.frame_size * 1024)
          (s.length / s.frame_size * s.frame_size) = s.position := by omega
      rw [hm, position_update_self]
    · have hm : min (s.position + s.frame_size * 1024)
          (s.length / s.frame_size * s.frame_size) = s.position := by omega
      rw [hm]
      simp [totalBytes]
    · intro _ h
      omega
  · by_cases hfull : s.position + s.frame_size * 1024 ≤ s.length
    · have hle := aligned_chunk_le hF hdiv hfull
      have hm : min (s.position + s.frame_size * 1024)
          (s.length / s.frame_size * s.frame_size) = s.position + s.frame_size * 1024 :=
        min_eq_left hle
      refine ⟨[⟨s.data, s.position, s.frame_size * 1024⟩], ?_, ?_, ?_⟩
      · rw [hm]
        exact updateQueue_full queue s hF hp hfull (by omega)
      · rw [hm]
        simp [totalBytes]
      · intro h _
        omega
    · have htail : s.length < s.position + s.frame_size * 1024 := not_le.mp hfull
      have hb := aligned_tdiv hF hdiv hlt.le
      have hm : min (s.position + s.frame_size * 1024)
          (s.length / s.frame_size * s.frame_size) =
            s.length / s.frame_size * s.frame_size := by omega
      refine ⟨[⟨s.data, s.position, s.length / s.frame_size * s.frame_size - s.position⟩],
        ?_, ?_, ?_⟩
      · rw [hm, updateQueue_tail queue s hF hp hlt htail (by omega), hb]
        simp
      · rw [hm]
        simp [totalBytes]
      · intro h _
        rw [← h, sub_self]

/-- One refill from the last frame boundary, short of `length`: a zero-length
buffer is enqueued and nothing else changes. -/
theorem updateQueue_stuck (queue : BufferQueue) (s : OpenSLData)
    (hF : 0 < s.frame_size) (hp : 0 ≤ s.position)
    (hT : s.position = s.length / s.frame_size * s.frame_size)
    (hlt : s.position < s.length)
    (hfit : s.length + s.frame_size * 1024 ≤ INT_MAX) :
    updateQueue queue s = some (queue ++ [⟨s.data, s.position, 0⟩], s) := by
  have hd : s.frame_size ∣ s.position := by
    rw [hT]; exact dvd_mul_left _ _
  obtain ⟨added, ha, -, hz⟩ := updateQueue_aligned queue s hF hp hT.le hd hfit
  have hC : 0 < s.frame_size * 1024 := by positivity
  have hm : min (s.position + s.frame_size * 1024)
      (s.length / s.frame_size * s.frame_size) = s.position := by omega
  rw [ha, hz hT hlt, hm, position_update_self]

/-- The refills of a freshly loaded voice, while `length` plus a chunk is an
`int`: after `n` of them the cursor is the smaller of `n` chunks and the last
frame boundary, and so is the number of bytes enqueued. -/
theorem updateQueueN_loaded (s : OpenSLData) (d : Option Nat)
    (hF : 0 < s.frame_size) (hL : 0 ≤ s.length)
    (hfit : s.length + s.frame_size * 1024 ≤ INT_MAX) (n : Nat) :
    ∃ q, updateQueueN n [] (loadedVoice s d) =
        some (q, { loadedVoice s d with position := (min ((n : Int) * 1024 * s.frame_size)
            (s.length / s.frame_size * s.frame_size)) }) ∧
      totalBytes q = min ((n : Int) * 1024 * s.frame_size)
        (s.length / s.frame_size * s.frame_size) := by
  have hT0 : 0 ≤ s.length / s.frame_size * s.frame_size :=
    mul_nonneg (Int.ediv_nonneg hL hF.le) hF.le
  have hTd : s.frame_size ∣ s.length / s.frame_size * s.frame_size := dvd_mul_left _ _
  induction n with
  | zero =>
    refine ⟨[], ?_, ?_⟩
    · have hm : min (((0 : Nat) : Int) * 1024 * s.frame_size)
          (s.length / s.frame_size * s.frame_size) = 0 := by
        rw [Nat.cast_zero, zero_mul, zero_mul]; exact min_eq_left hT0
      rw [hm]
      rfl
    · have hm : min (((0 : Nat) : Int) * 1024 * s.frame_size)
          (s.length / s.frame_size * s.frame_size) = 0 := by
        rw [Nat.cast_zero, zero_mul, zero_mul]; exact min_eq_left hT0
      rw [hm]
      rfl
  | succ n ih =>
    obtain ⟨q, hq, hb⟩ := ih
    have hn0 : 0 ≤ (n : Int) * 1024 * s.frame_size := by positivity
    have hnd : s.frame_size ∣ (n : Int) * 1024 * s.frame_size := dvd_mul_left _ _
    have hpd : s.frame_size ∣ min ((n : Int) * 1024 * s.frame_size)
        (s.length / s.frame_size * s.frame_size) := by
      rcases min_choice ((n : Int) * 1024 * s.frame_size)
        (s.length / s.frame_size * s.frame_size) with h | h <;> rw [h] <;> assumption
    obtain ⟨added, ha, hab, -⟩ := updateQueue_aligned q
      { loadedVoice s d with position := (min ((n : Int) * 1024 * s.frame_size)
            (s.length / s.frame_size * s.frame_size)) }
      hF (le_min hn0 hT0) (min_le_right _ _) hpd hfit
    have hstep : min (min ((n : Int) * 1024 * s.frame_size)
          (s.length / s.frame_size * s.frame_size) + s.frame_size * 1024)
        (s.length / s.frame_size * s.frame_size) =
        min (((n + 1 : Nat) : Int) * 1024 * s.frame_size)
          (s.length / s.frame_size * s.frame_size) := by
      have e : ((n + 1 : Nat) : Int) * 1024 * s.frame_size =
          (n : Int) * 1024 * s.frame_size + s.frame_size * 1024 := by
        push_cast; ring
      have hC : 0 < s.frame_size * 1024 := by positivity
      rw [e]
      omega
    refine ⟨q ++ added, ?_, ?_⟩
    · rw [updateQueueN_succ, hq, Option.some_bind, ← hstep]
      exact ha
    · have hab' : totalBytes added =
          min (min ((n : Int) * 1024 * s.frame_size)
              (s.length / s.frame_size * s.frame_size) + s.frame_size * 1024)
            (s.length / s.frame_size * s.frame_size) -
          min ((n : Int) * 1024 * s.frame_size)
            (s.length / s.frame_size * s.frame_size) := hab
      rw [totalBytes_append, hb, ← hstep, hab']
      ring

/-- Enough refills cover the buffer: `length` chunks are at least `length`
bytes. -/
theorem chunks_cover {l f : Int} {n : Nat} (hf : 0 < f) (h : l ≤ (n : Int)) :
    l ≤ (n : Int) * 1024 * f := by
  have h0 : (0 : Int) ≤ (n : Int) := Int.natCast_nonneg n
  have h1 : (n : Int) * 1024 ≤ (n : Int) * 1024 * f :=
    le_mul_of_one_le_right (by omega) (by omega)
  omega

/-- The refills of a freshly loaded voice while whole chunks fit: after `n` of
them, `n` chunks not exceeding `length`, the cursor is at `n` chunks and that
many bytes were enqueued. Only `length` has to be an `int` here. -/
theorem updateQueueN_full_chunks (s : OpenSLData) (d : Option Nat)
    (hF : 0 < s.frame_size) (hL : s.length ≤ INT_MAX) (n : Nat)
    (hn : (n : Int) * 1024 * s.frame_size ≤ s.length) :
    ∃ q, updateQueueN n [] (loadedVoice s d) =
        some (q, { loadedVoice s d with position := ((n : Int) * 1024 * s.frame_size) }) ∧
      totalBytes q = (n : Int) * 1024 * s.frame_size := by
  induction n with
  | zero =>
    refine ⟨[], ?_, ?_⟩
    · rw [Nat.cast_zero, zero_mul, zero_mul]
      rfl
    · rw [Nat.cast_zero, zero_mul, zero_mul]
      rfl
  | succ n ih =>
    have e : ((n + 1 : Nat) : Int) * 1024 * s.frame_size =
        (n : Int) * 1024 * s.frame_size + s.frame_size * 1024 := by
      push_cast; ring
    have hC : 0 < s.frame_size * 1024 := by positivity
    obtain ⟨q, hq, hb⟩ := ih (by omega)
    have hn0 : 0 ≤ (n : Int) * 1024 * s.frame_size :=
      mul_nonneg (mul_nonneg (Int.natCast_nonneg n) (by norm_num)) hF.le
    refine ⟨q ++ [⟨d, (n : Int) * 1024 * s.frame_size, s.frame_size * 1024⟩], ?_, ?_⟩
    · rw [updateQueueN_succ, hq, Option.some_bind, e]
      exact updateQueue_full q
        { loadedVoice s d with position := ((n : Int) * 1024 * s.frame_size) }
        hF hn0 (e ▸ hn) hL
    · rw [totalBytes_append, hb, e]
      simp [totalBytes]

/-- One refill with one-byte frames, `length = INT_MAX` and the cursor 1023
bytes before the end: `position + 1024` wraps around. -/
theorem updateQueue_wraps (queue : BufferQueue) (o p d : Option Nat) :
    updateQueue queue ⟨o, p, d, 2147482624, 2147483647, 1⟩ =
      some (queue ++ [⟨d, 2147482624, 1024⟩], ⟨o, p, d, -2147483648, 2147483647, 1⟩) := by
  have a1 : int_mul 1 1024 = 1024 := by decide
  have a2 : int_add 2147482624 1024 = -2147483648 := by
    unfold int_add wrap32; norm_num
  unfold updateQueue
  simp [a1, a2, Enqueue]

/-- One refill with one-byte frames and `length = INT_MAX`, from a cursor that
is an `int` and a multiple of 1024: the cursor is before the end, a whole
chunk is enqueued and the cursor moves by 1024 with wrap-around. -/
theorem updateQueue_int_max_step (queue : BufferQueue) (s : OpenSLData)
    (hL : s.length = 2147483647) (hF : s.frame_size = 1) (hp : IsInt s.position)
    (hd : (1024 : Int) ∣ s.position) :
    updateQueue queue s =
      some (queue ++ [⟨s.data, s.position, 1024⟩],
            { s with position := wrap32 (s.position + 1024) }) := by
  unfold IsInt INT_MIN INT_MAX at hp
  have hlt : s.position < s.length := by omega
  have a1 : int_mul 1 1024 = 1024 := by decide
  have a2 : ¬ int_add s.position 1024 > s.length := by
    have := (isInt_wrap32 (s.position + 1024)).2
    unfold INT_MAX at this
    unfold int_add
    omega
  unfold updateQueue
  simp only [hlt, if_true, hF, a1, a2, if_false]
  rfl

/-- With one-byte frames and `length = INT_MAX` the cursor of a freshly loaded
voice stays on multiples of 1024 for ever. -/
theorem updateQueueN_int_max (o p d : Option Nat) (n : Nat) :
    ∃ q st, updateQueueN n [] (loadedVoice ⟨o, p, none, 0, 2147483647, 1⟩ d) = some (q, st) ∧
      st.length = 2147483647 ∧ st.frame_size = 1 ∧ IsInt st.position ∧
      (1024 : Int) ∣ st.position := by
  induction n with
  | zero =>
    exact ⟨[], _, rfl, rfl, rfl, (by decide : IsInt 0), (by decide : (1024 : Int) ∣ 0)⟩
  | succ n ih =>
    obtain ⟨q, st, hq, hL, hF, hp, hd⟩ := ih
    refine ⟨q ++ [⟨st.data, st.position, 1024⟩],
      { st with position := wrap32 (st.position + 1024) }, ?_, hL, hF, isInt_wrap32 _, ?_⟩
    · rw [updateQueueN_succ, hq, Option.some_bind]
      exact updateQueue_int_max_step q st hL hF hp hd
    · show (1024 : Int) ∣ wrap32 (st.position + 1024)
      unfold wrap32
      omega

/-! ## C1: the contract of one refill -/

/-- C1, as stated, fails: with one-byte frames, `length = INT_MAX` and the
cursor at 2147482624, `position < length` and `position + 1024 > length`, so
the contract asks for the tail buffer of
`((length - position) / 1) * 1 = 1023` bytes and a cursor at `length`; but the
`int` sum `position + 1024` wraps around, the code takes the other branch,
enqueues 1024 bytes and leaves the cursor at `INT_MIN`. -/
theorem refill_contract_fails_on_overflow :
    OpenSLData.WellTyped ⟨some 1, some 2, some 7, 2147482624, 2147483647, 1⟩ ∧
    contractBytes 2147482624 2147483647 1 = 1023 ∧
    updateQueue [] ⟨some 1, some 2, some 7, 2147482624, 2147483647, 1⟩ =
      some ([⟨some 7, 2147482624, 1024⟩],
            ⟨some 1, some 2, some 7, -2147483648, 2147483647, 1⟩) ∧
    ¬ RefillContract [] ⟨some 1, some 2, some 7, 2147482624, 2147483647, 1⟩ := by
  have e : updateQueue [] ⟨some 1, some 2, some 7, 2147482624, 2147483647, 1⟩ =
      some ([⟨some 7, 2147482624, 1024⟩],
            ⟨some 1, some 2, some 7, -2147483648, 2147483647, 1⟩) := by decide
  have c : contractBytes 2147482624 2147483647 1 = 1023 := by decide
  refine ⟨by decide, c, e, ?_⟩
  rintro ⟨h, -, -⟩
  have h1 := h (by decide)
  rw [e, c] at h1
  simp at h1

/-- C1, amended. For every per-voice state whose cursor is an `int` and for
which, while `position < length`, `frame_size*1024` and
`position + frame_size*1024` are representable as an `int`: if
`position < length` one invocation of `updateQueue` enqueues exactly one
buffer, at byte offset `position` of the sample data and of `bytes` bytes,
where `bytes = frame_size*1024` when `position + frame_size*1024 <= length`
and `bytes = ((length - position) / frame_size) * frame_size` otherwise, and
sets `position` to `position + bytes`; if `position >= length` it enqueues
nothing and leaves every field unchanged. In both cases `data`, `length` and
`frame_size` are unchanged. -/
theorem updateQueue_contract (queue : BufferQueue) (s : OpenSLData)
    (hp : IsInt s.position)
    (hov : s.position < s.length →
      IsInt (s.frame_size * 1024) ∧ IsInt (s.position + s.frame_size * 1024)) :
    RefillContract queue s := by
  have hlt : s.position < s.length →
      updateQueue queue s =
        some (queue ++ [⟨s.data, s.position,
                contractBytes s.position s.length s.frame_size⟩],
              { s with position :=
                  (s.position + contractBytes s.position s.length s.frame_size) }) := by
    intro h
    obtain ⟨h1, h2⟩ := hov h
    have e1 := int_mul_of_isInt h1
    have e2 := int_add_of_isInt h2
    unfold contractBytes
    by_cases hc : s.position + s.frame_size * 1024 ≤ s.length
    · have hn : ¬ s.position + s.frame_size * 1024 > s.length := not_lt.mpr hc
      unfold updateQueue
      simp [h, e1, e2, hc, hn, Enqueue]
    · have ht : s.position + s.frame_size * 1024 > s.length := not_le.mp hc
      unfold IsInt INT_MIN INT_MAX at hp h1 h2
      have hf : 0 < s.frame_size := by omega
      have ha : 0 ≤ s.length - s.position := by omega
      obtain ⟨b1, b2, b3, b4, _⟩ := tdiv_bounds ha hf
      have e3 : int_sub s.length s.position = s.length - s.position :=
        int_sub_of_isInt (by unfold IsInt INT_MIN INT_MAX; omega)
      have e4 : ¬ (s.frame_size = 0 ∨
          (s.length - s.position = INT_MIN ∧ s.frame_size = -1)) := by
        omega
      have e5 : int_mul (Int.tdiv (s.length - s.position) s.frame_size) s.frame_size =
          Int.tdiv (s.length - s.position) s.frame_size * s.frame_size :=
        int_mul_of_isInt (by unfold IsInt INT_MIN INT_MAX; omega)
      have e6 : int_add s.position
            (Int.tdiv (s.length - s.position) s.frame_size * s.frame_size) =
          s.position + Int.tdiv (s.length - s.position) s.frame_size * s.frame_size :=
        int_add_of_isInt (by unfold IsInt INT_MIN INT_MAX; omega)
      unfold updateQueue
      simp [h, e1, e2, e3, hc, ht, int_div, e4, e5, e6, Enqueue]
  have hge : s.length ≤ s.position → updateQueue queue s = some (queue, s) :=
    updateQueue_done queue s
  refine ⟨hlt, hge, ?_⟩
  by_cases h : s.position < s.length
  · exact ⟨_, hlt h, rfl, rfl, rfl⟩
  · exact ⟨_, hge (not_lt.mp h), rfl, rfl, rfl⟩

/-- C1, amended, at a voice of 10000 bytes with 4-byte frames: from the start a
full chunk of 4096 bytes is enqueued, and from 8192 the 1808 bytes left. -/
theorem updateQueue_contract_witness :
    updateQueue [] ⟨some 1, none, some 7, 0, 10000, 4⟩ =
      some ([⟨some 7, 0, 4096⟩], ⟨some 1, none, some 7, 4096, 10000, 4⟩) ∧
    updateQueue [] ⟨some 1, none, some 7, 8192, 10000, 4⟩ =
      some ([⟨some 7, 8192, 1808⟩], ⟨some 1, none, some 7, 10000, 10000, 4⟩) :=
  ⟨((updateQueue_contract [] ⟨some 1, none, some 7, 0, 10000, 4⟩ (by decide)
      (fun _ => by decide)).1 (by decide)).trans (by decide),
   ((updateQueue_contract [] ⟨some 1, none, some 7, 8192, 10000, 4⟩ (by decide)
      (fun _ => by decide)).1 (by decide)).trans (by decide)⟩

/-! ## C8: one refill stays inside the sample buffer -/

/-- C8, as stated, fails: with one-byte frames, a buffer of `INT_MAX` bytes
and the cursor 1023 bytes before its end, every precondition of the claim holds
(`frame_size*1024 = 1024` is an `int`), yet `position + 1024` overflows, the
tail branch is skipped, 1024 bytes are enqueued (one byte past the end) and
the cursor becomes negative. -/
theorem refill_safe_fails_near_int_max :
    (0 < (1 : Int) ∧ 0 ≤ (2147482624 : Int) ∧ (2147482624 : Int) ≤ 2147483647 ∧
      IsInt ((1 : Int) * 1024) ∧
      OpenSLData.WellTyped ⟨some 1, some 2, some 7, 2147482624, 2147483647, 1⟩) ∧
    updateQueue [] ⟨some 1, some 2, some 7, 2147482624, 2147483647, 1⟩ =
      some ([⟨some 7, 2147482624, 1024⟩],
            ⟨some 1, some 2, some 7, -2147483648, 2147483647, 1⟩) ∧
    ¬ RefillSafe [] ⟨some 1, some 2, some 7, 2147482624, 2147483647, 1⟩ := by
  have e : updateQueue [] ⟨some 1, some 2, some 7, 2147482624, 2147483647, 1⟩ =
      some ([⟨some 7, 2147482624, 1024⟩],
            ⟨some 1, some 2, some 7, -2147483648, 2147483647, 1⟩) := by decide
  refine ⟨by decide, e, ?_⟩
  rintro ⟨added, s', h, -, -, h0, -⟩
  rw [e] at h
  simp only [List.nil_append, Option.some.injEq, Prod.mk.injEq] at h
  rw [← h.2] at h0
  exact absurd h0 (by decide)

/-- C8, amended. For a state with `frame_size > 0`, `0 <= position <= length`,
`length` an `int`, `frame_size*1024` an `int` and, while the cursor is before
the end, `position + frame_size*1024` an `int` as well, one invocation of
`updateQueue` returns (no division by zero), enqueues at most one buffer
`[position, position + bytes)` with `0 <= bytes` and
`position + bytes <= length`, leaves `0 <= position <= length`, and keeps a
cursor that is a multiple of `frame_size` a multiple of `frame_size`. -/
theorem updateQueue_refill_safe (queue : BufferQueue) (s : OpenSLData)
    (hF : 0 < s.frame_size) (hp : 0 ≤ s.position) (hpl : s.position ≤ s.length)
    (hL : s.length ≤ INT_MAX) (_hchunk : IsInt (s.frame_size * 1024))
    (hsum : s.position < s.length → s.position + s.frame_size * 1024 ≤ INT_MAX) :
    RefillSafe queue s := by
  rcases eq_or_lt_of_le hpl with heq | hlt
  · refine ⟨[], s, ?_, by simp, by simp, hp, hpl, rfl, rfl, fun h => h⟩
    rw [List.append_nil]
    exact updateQueue_done queue s heq.ge
  · by_cases hfit : s.position + s.frame_size * 1024 ≤ s.length
    · refine ⟨_, _, updateQueue_full queue s hF hp hfit hL, by simp, ?_, ?_, ?_, rfl, rfl, ?_⟩
      · intro b hb
        rw [List.mem_singleton] at hb
        subst hb
        exact ⟨rfl, rfl, by positivity, hfit, rfl⟩
      · show 0 ≤ s.position + s.frame_size * 1024
        positivity
      · exact hfit
      · intro hd
        exact dvd_add hd (dvd_mul_right _ _)
    · have htail : s.length < s.position + s.frame_size * 1024 := not_le.mp hfit
      obtain ⟨b1, b2, b3, b4, _⟩ :=
        tdiv_bounds (show 0 ≤ s.length - s.position by omega) hF
      have b5 : s.position +
          Int.tdiv (s.length - s.position) s.frame_size * s.frame_size ≤ s.length := by
        omega
      have b6 : 0 ≤ s.position +
          Int.tdiv (s.length - s.position) s.frame_size * s.frame_size := by
        omega
      refine ⟨_, _, updateQueue_tail queue s hF hp hlt htail (hsum hlt), by simp,
        ?_, b6, b5, rfl, rfl, ?_⟩
      · intro b hb
        rw [List.mem_singleton] at hb
        subst hb
        exact ⟨rfl, rfl, b3, b5, rfl⟩
      · intro hd
        exact dvd_add hd (dvd_mul_left _ _)

/-- C8, amended, at a 10000-byte buffer of 4-byte frames with the cursor one
chunk in. -/
theorem updateQueue_refill_safe_witness :
    RefillSafe [] ⟨some 1, some 2, some 7, 4096, 10000, 4⟩ :=
  updateQueue_refill_safe [] ⟨some 1, some 2, some 7, 4096, 10000, 4⟩
    (by decide) (by decide) (by decide) (by decide) (by decide) (by decide)

/-! ## C9: the cursor after `n` refills -/

/-- C9, as stated, fails: a freshly loaded voice with one-byte frames
(`frame_size = 1 > 0`) and `length = INT_MAX >= 0`, a multiple of `frame_size`.
The 2097152nd refill starts 1023 bytes before the end, where `position + 1024`
wraps around: after it the cursor is `INT_MIN`, not
`min(2097152*1024*1, (length/1)*1) = INT_MAX`, while `2^31` bytes were
enqueued. And the cursor never reaches `length`: it stays on multiples of 1024
after any number of refills. -/
theorem refill_cursor_wraps_at_int_max :
    (0 < (1 : Int) ∧ (0 : Int) ≤ 2147483647 ∧ IsInt 2147483647 ∧ IsInt 1 ∧
      (1 : Int) ∣ 2147483647) ∧
    (∃ q st, updateQueueN 2097152 []
        (loadedVoice ⟨some 1, none, none, 0, 2147483647, 1⟩ (some 7)) = some (q, st) ∧
      st.position = -2147483648 ∧ totalBytes q = 2147483648 ∧
      min (((2097152 : Nat) : Int) * 1024 * 1) (2147483647 / 1 * 1) = 2147483647) ∧
    (∀ n : Nat, ∃ q st, updateQueueN n []
        (loadedVoice ⟨some 1, none, none, 0, 2147483647, 1⟩ (some 7)) = some (q, st) ∧
      st.position ≠ st.length) := by
  refine ⟨⟨by decide, by decide, by decide, by decide, one_dvd _⟩, ?_, ?_⟩
  · obtain ⟨q, hq, hb⟩ := updateQueueN_full_chunks ⟨some 1, none, none, 0, 2147483647, 1⟩
      (some 7) (by decide) (by decide) 2097151 (by decide)
    refine ⟨q ++ [⟨some 7, 2147482624, 1024⟩],
      ⟨some 1, none, some 7, -2147483648, 2147483647, 1⟩, ?_, rfl, ?_, by decide⟩
    · show updateQueueN (2097151 + 1) [] _ = _
      rw [updateQueueN_succ, hq, Option.some_bind]
      exact updateQueue_wraps q (some 1) none (some 7)
    · rw [totalBytes_append, hb]
      decide
  · intro n
    obtain ⟨q, st, hq, hL, -, -, hd⟩ := updateQueueN_int_max (some 1) none (some 7) n
    refine ⟨q, st, hq, ?_⟩
    rw [hL]
    omega

/-- C9, amended. For every `frame_size > 0` and `length >= 0` with
`length + 1024*frame_size` representable as an `int`, starting from a freshly
loaded voice: after `n` refills the cursor is
`min(n*1024*frame_size, (length/frame_size)*frame_size)` and so is the total
number of bytes enqueued; the cursor reaches `length` after finitely many
refills exactly when `length` is a multiple of `frame_size`, and from then on
the callback does nothing; when it is not a multiple, the cursor stops at the
last whole frame, before `length`, and every later refill enqueues a
zero-length buffer there without advancing. -/
theorem updateQueueN_cursor (s : OpenSLData) (d : Option Nat)
    (hF : 0 < s.frame_size) (hL : 0 ≤ s.length)
    (hfit : s.length + s.frame_size * 1024 ≤ INT_MAX) :
    (∀ n : Nat, ∃ q st, updateQueueN n [] (loadedVoice s d) = some (q, st) ∧
      st.position = min ((n : Int) * 1024 * s.frame_size)
        (s.length / s.frame_size * s.frame_size) ∧
      totalBytes q = min ((n : Int) * 1024 * s.frame_size)
        (s.length / s.frame_size * s.frame_size)) ∧
    ((∃ (n : Nat) (q : BufferQueue) (st : OpenSLData),
        updateQueueN n [] (loadedVoice s d) = some (q, st) ∧ st.position = st.length) ↔
      s.frame_size ∣ s.length) ∧
    (s.frame_size ∣ s.length → ∃ N : Nat, ∀ n : Nat, N ≤ n →
      ∃ q st, updateQueueN n [] (loadedVoice s d) = some (q, st) ∧
        st.position = s.length ∧ updateQueue q st = some (q, st)) ∧
    (¬ s.frame_size ∣ s.length → ∃ N : Nat, ∀ n : Nat, N ≤ n →
      ∃ q st, updateQueueN n [] (loadedVoice s d) = some (q, st) ∧
        st.position = s.length / s.frame_size * s.frame_size ∧
        st.position < s.length ∧
        updateQueue q st = some (q ++ [⟨d, st.position, 0⟩], st)) := by
  have hT0 : 0 ≤ s.length / s.frame_size * s.frame_size :=
    mul_nonneg (Int.ediv_nonneg hL hF.le) hF.le
  have hT1 : s.length / s.frame_size * s.frame_size ≤ s.length :=
    Int.ediv_mul_le _ hF.ne'
  have hTd : s.frame_size ∣ s.length / s.frame_size * s.frame_size := dvd_mul_left _ _
  have hC : 0 < s.frame_size * 1024 := by positivity
  have hlate : ∀ n : Nat, s.length.toNat ≤ n →
      min ((n : Int) * 1024 * s.frame_size) (s.length / s.frame_size * s.frame_size) =
        s.length / s.frame_size * s.frame_size := by
    intro n hn
    have h1 : s.length ≤ (n : Int) := by
      have := Int.toNat_of_nonneg hL
      omega
    have h2 := chunks_cover hF h1
    omega
  refine ⟨?_, ?_, ?_, ?_⟩
  · intro n
    obtain ⟨q, hq, hb⟩ := updateQueueN_loaded s d hF hL hfit n
    exact ⟨q, _, hq, rfl, hb⟩
  · constructor
    · rintro ⟨n, q, st, hrun, hpos⟩
      obtain ⟨q', hq, -⟩ := updateQueueN_loaded s d hF hL hfit n
      rw [hq] at hrun
      simp only [Option.some.injEq, Prod.mk.injEq] at hrun
      rw [← hrun.2] at hpos
      have hpos' : min ((n : Int) * 1024 * s.frame_size)
          (s.length / s.frame_size * s.frame_size) = s.length := hpos
      have hTL : s.length / s.frame_size * s.frame_size = s.length := by omega
      rw [← hTL]
      exact hTd
    · intro hdvd
      obtain ⟨q, hq, -⟩ := updateQueueN_loaded s d hF hL hfit s.length.toNat
      refine ⟨s.length.toNat, q, _, hq, ?_⟩
      show min _ _ = s.length
      rw [hlate _ le_rfl]
      exact Int.ediv_mul_cancel hdvd
  · intro hdvd
    refine ⟨s.length.toNat, fun n hn => ?_⟩
    obtain ⟨q, hq, -⟩ := updateQueueN_loaded s d hF hL hfit n
    have hTL : s.length / s.frame_size * s.frame_size = s.length :=
      Int.ediv_mul_cancel hdvd
    refine ⟨q, _, hq, ?_, ?_⟩
    · show min _ _ = s.length
      rw [hlate n hn, hTL]
    · apply updateQueue_done
      show s.length ≤ min _ _
      rw [hlate n hn, hTL]
  · intro hnd
    have hTL : s.length / s.frame_size * s.frame_size < s.length := by
      rcases eq_or_lt_of_le hT1 with h | h
      · exact absurd (h ▸ hTd) hnd
      · exact h
    refine ⟨s.length.toNat, fun n hn => ?_⟩
    obtain ⟨q, hq, -⟩ := updateQueueN_loaded s d hF hL hfit n
    rw [hlate n hn] at hq
    refine ⟨q, _, hq, rfl, hTL, ?_⟩
    exact updateQueue_stuck q
      { loadedVoice s d with position := (s.length / s.frame_size * s.frame_size) }
      hF hT0 rfl hTL hfit

/-- C9, amended, at a freshly loaded voice of 10001 bytes with 4-byte frames:
the cursor after 3 refills is `min(3*1024*4, (10001/4)*4)`. -/
theorem updateQueueN_cursor_witness :
    ∃ q st, updateQueueN 3 [] (loadedVoice ⟨some 1, none, none, 0, 10001, 4⟩ (some 7)) =
        some (q, st) ∧
      st.position = min (((3 : Nat) : Int) * 1024 * 4) (10001 / 4 * 4) ∧
      totalBytes q = min (((3 : Nat) : Int) * 1024 * 4) (10001 / 4 * 4) :=
  (updateQueueN_cursor ⟨some 1, none, none, 0, 10001, 4⟩ (some 7)
    (by decide) (by decide) (by decide)).1 3


/-! ## C2, C3, C4, C10: the format descriptor -/

/-- The channel counts of the seven layouts. -/
theorem channel_counts :
    al_get_channel_count ALLEGRO_CHANNEL_CONF_1 = 1 ∧
    al_get_channel_count ALLEGRO_CHANNEL_CONF_2 = 2 ∧
    al_get_channel_count ALLEGRO_CHANNEL_CONF_3 = 3 ∧
    al_get_channel_count ALLEGRO_CHANNEL_CONF_4 = 4 ∧
    al_get_channel_count ALLEGRO_CHANNEL_CONF_5_1 = 6 ∧
    al_get_channel_count ALLEGRO_CHANNEL_CONF_6_1 = 7 ∧
    al_get_channel_count ALLEGRO_CHANNEL_CONF_7_1 = 8 := by decide

/-- C3. `setupFormat` maps the depth of a voice to a bit width: the 8-bit
depths give `bitsPerSample = containerSize = 8`, the 16-bit depths 16, 32-bit
float 32, and the 24-bit depths are stored in a 32-bit container
(`containerSize = 32`, with `bitsPerSample = 24`); so for each of the seven
depths the container is 8, 16 or 32 bits wide. The byte order is little-endian
for every voice, whatever its depth, channel configuration and frequency. -/
theorem setupFormat_depth (v : ALLEGRO_VOICE) :
    (v.depth = ALLEGRO_AUDIO_DEPTH_UINT8 ∨ v.depth = ALLEGRO_AUDIO_DEPTH_INT8 →
      (setupFormat v).bitsPerSample = some 8 ∧ (setupFormat v).containerSize = some 8) ∧
    (v.depth = ALLEGRO_AUDIO_DEPTH_UINT16 ∨ v.depth = ALLEGRO_AUDIO_DEPTH_INT16 →
      (setupFormat v).bitsPerSample = some 16 ∧ (setupFormat v).containerSize = some 16) ∧
    (v.depth = ALLEGRO_AUDIO_DEPTH_FLOAT32 →
      (setupFormat v).bitsPerSample = some 32 ∧ (setupFormat v).containerSize = some 32) ∧
    (v.depth = ALLEGRO_AUDIO_DEPTH_UINT24 ∨ v.depth = ALLEGRO_AUDIO_DEPTH_INT24 →
      (setupFormat v).bitsPerSample = some 24 ∧ (setupFormat v).containerSize = some 32) ∧
    (v.depth ∈ knownDepths →
      (setupFormat v).containerSize = some 8 ∨ (setupFormat v).containerSize = some 16 ∨
        (setupFormat v).containerSize = some 32) ∧
    (setupFormat v).endianness = SL_BYTEORDER_LITTLEENDIAN := by
  obtain ⟨depth, conf, freq, size⟩ := v
  refine ⟨?_, ?_, ?_, ?_, ?_, rfl⟩
  · rintro (rfl | rfl) <;> exact ⟨rfl, rfl⟩
  · rintro (rfl | rfl) <;> exact ⟨rfl, rfl⟩
  · rintro rfl; exact ⟨rfl, rfl⟩
  · rintro (rfl | rfl) <;> exact ⟨rfl, rfl⟩
  · intro h
    simp only [knownDepths, List.mem_cons, List.mem_singleton, List.not_mem_nil,
      or_false] at h
    rcases h with rfl | rfl | rfl | rfl | rfl | rfl | rfl
    · exact Or.inl rfl
    · exact Or.inr (Or.inl rfl)
    · exact Or.inr (Or.inr rfl)
    · exact Or.inr (Or.inr rfl)
    · exact Or.inl rfl
    · exact Or.inr (Or.inl rfl)
    · exact Or.inr (Or.inr rfl)

/-- C3 at an unsigned 24-bit stereo voice. -/
theorem setupFormat_depth_witness :
    (setupFormat ⟨ALLEGRO_AUDIO_DEPTH_UINT24, ALLEGRO_CHANNEL_CONF_2, 48000, 4096⟩).bitsPerSample
        = some 24 ∧
    (setupFormat ⟨ALLEGRO_AUDIO_DEPTH_UINT24, ALLEGRO_CHANNEL_CONF_2, 48000, 4096⟩).containerSize
        = some 32 :=
  (setupFormat_depth
    ⟨ALLEGRO_AUDIO_DEPTH_UINT24, ALLEGRO_CHANNEL_CONF_2, 48000, 4096⟩).2.2.2.1 (Or.inl rfl)

/-- The supported frequencies, one by one. -/
theorem rate_cases {freq : Nat} (h : freq ∈ supportedRates) :
    freq = 8000 ∨ freq = 11025 ∨ freq = 12000 ∨ freq = 16000 ∨ freq = 22050 ∨
    freq = 24000 ∨ freq = 32000 ∨ freq = 44100 ∨ freq = 48000 ∨ freq = 64000 ∨
    freq = 88200 ∨ freq = 96000 ∨ freq = 192000 := by
  simpa only [supportedRates, List.mem_cons, List.mem_singleton, List.not_mem_nil,
    or_false] using h

/-- On a supported frequency `samplesPerSec` is the frequency in milliHertz. -/
theorem setupFormat_rate_fields (depth conf freq size : Nat)
    (h : freq ∈ supportedRates) :
    (setupFormat ⟨depth, conf, freq, size⟩).samplesPerSec = some (freq * 1000) := by
  rcases rate_cases h with h | h | h | h | h | h | h | h | h | h | h | h | h
  all_goals subst h
  all_goals simp [setupFormat, SL_SAMPLINGRATE_8, SL_SAMPLINGRATE_11_025,
    SL_SAMPLINGRATE_12, SL_SAMPLINGRATE_16, SL_SAMPLINGRATE_22_05, SL_SAMPLINGRATE_24,
    SL_SAMPLINGRATE_32, SL_SAMPLINGRATE_44_1, SL_SAMPLINGRATE_48, SL_SAMPLINGRATE_64,
    SL_SAMPLINGRATE_88_2, SL_SAMPLINGRATE_96, SL_SAMPLINGRATE_192]

/-- The same, for a voice. -/
theorem setupFormat_rate_of_supported (v : ALLEGRO_VOICE)
    (h : v.frequency ∈ supportedRates) :
    (setupFormat v).samplesPerSec = some (v.frequency * 1000) :=
  setupFormat_rate_fields v.depth v.chan_conf v.frequency v.buffer_size h

/-- C4. For each of the thirteen supported frequencies `setupFormat` sets
`samplesPerSec` to the native constant of that rate, which is the frequency in
milliHertz (`f * 1000`); for every other frequency `samplesPerSec` is left
unset; and two voices with supported frequencies and the same `samplesPerSec`
have the same frequency. -/
theorem setupFormat_samplesPerSec (v : ALLEGRO_VOICE) :
    (v.frequency = 8000 → (setupFormat v).samplesPerSec = some SL_SAMPLINGRATE_8) ∧
    (v.frequency = 11025 → (setupFormat v).samplesPerSec = some SL_SAMPLINGRATE_11_025) ∧
    (v.frequency = 12000 → (setupFormat v).samplesPerSec = some SL_SAMPLINGRATE_12) ∧
    (v.frequency = 16000 → (setupFormat v).samplesPerSec = some SL_SAMPLINGRATE_16) ∧
    (v.frequency = 22050 → (setupFormat v).samplesPerSec = some SL_SAMPLINGRATE_22_05) ∧
    (v.frequency = 24000 → (setupFormat v).samplesPerSec = some SL_SAMPLINGRATE_24) ∧
    (v.frequency = 32000 → (setupFormat v).samplesPerSec = some SL_SAMPLINGRATE_32) ∧
    (v.frequency = 44100 → (setupFormat v).samplesPerSec = some SL_SAMPLINGRATE_44_1) ∧
    (v.frequency = 48000 → (setupFormat v).samplesPerSec = some SL_SAMPLINGRATE_48) ∧
    (v.frequency = 64000 → (setupFormat v).samplesPerSec = some SL_SAMPLINGRATE_64) ∧
    (v.frequency = 88200 → (setupFormat v).samplesPerSec = some SL_SAMPLINGRATE_88_2) ∧
    (v.frequency = 96000 → (setupFormat v).samplesPerSec = some SL_SAMPLINGRATE_96) ∧
    (v.frequency = 192000 → (setupFormat v).samplesPerSec = some SL_SAMPLINGRATE_192) ∧
    (v.frequency ∈ supportedRates →
      (setupFormat v).samplesPerSec = some (v.frequency * 1000)) ∧
    (v.frequency ∉ supportedRates → (setupFormat v).samplesPerSec = none) ∧
    (∀ w : ALLEGRO_VOICE, v.frequency ∈ supportedRates → w.frequency ∈ supportedRates →
      (setupFormat v).samplesPerSec = (setupFormat w).samplesPerSec →
      v.frequency = w.frequency) := by
  refine ⟨?_, ?_, ?_, ?_, ?_, ?_, ?_, ?_, ?_, ?_, ?_, ?_, ?_,
    setupFormat_rate_of_supported v, ?_, ?_⟩
  all_goals obtain ⟨depth, conf, freq, size⟩ := v
  · rintro rfl; simp [setupFormat]
  · rintro rfl; simp [setupFormat]
  · rintro rfl; simp [setupFormat]
  · rintro rfl; simp [setupFormat]
  · rintro rfl; simp [setupFormat]
  · rintro rfl; simp [setupFormat]
  · rintro rfl; simp [setupFormat]
  · rintro rfl; simp [setupFormat]
  · rintro rfl; simp [setupFormat]
  · rintro rfl; simp [setupFormat]
  · rintro rfl; simp [setupFormat]
  · rintro rfl; simp [setupFormat]
  · rintro rfl; simp [setupFormat]
  · intro h
    simp only [supportedRates, List.mem_cons, List.mem_singleton, List.not_mem_nil,
      or_false, not_or] at h
    obtain ⟨h1, h2, h3, h4, h5, h6, h7, h8, h9, h10, h11, h12, h13⟩ := h
    simp only [setupFormat, h1, h2, h3, h4, h5, h6, h7, h8, h9, h10, h11, h12, h13,
      if_false]
  · intro w hv hw he
    have e1 := setupFormat_rate_of_supported _ hv
    have e2 := setupFormat_rate_of_supported _ hw
    rw [e1, e2] at he
    have : freq * 1000 = w.frequency * 1000 := Option.some.inj he
    show freq = w.frequency
    omega

/-- C4 at a 44100 Hz voice and at a 44000 Hz voice. -/
theorem setupFormat_samplesPerSec_witness :
    (setupFormat ⟨ALLEGRO_AUDIO_DEPTH_INT16, ALLEGRO_CHANNEL_CONF_2, 44100, 4096⟩).samplesPerSec
        = some 44100000 ∧
    (setupFormat ⟨ALLEGRO_AUDIO_DEPTH_INT16, ALLEGRO_CHANNEL_CONF_2, 44000, 4096⟩).samplesPerSec
        = none := by
  obtain ⟨_, _, _, _, _, _, _, h, _⟩ :=
    setupFormat_samplesPerSec ⟨ALLEGRO_AUDIO_DEPTH_INT16, ALLEGRO_CHANNEL_CONF_2, 44100, 4096⟩
  obtain ⟨_, _, _, _, _, _, _, _, _, _, _, _, _, _, g, _⟩ :=
    setupFormat_samplesPerSec ⟨ALLEGRO_AUDIO_DEPTH_INT16, ALLEGRO_CHANNEL_CONF_2, 44000, 4096⟩
  exact ⟨(h rfl).trans (by simp [SL_SAMPLINGRATE_44_1]), g (by simp [supportedRates])⟩

/-- C10, evaluated on the code. Whatever the depth, frequency and buffer size
of the voice: for mono, stereo, 3, 4 and 5.1 the mask built by `setupFormat`
has as many bits set as `numChannels`; for 6.1 the mask is `0x63F`, with 8 bits
set, while `numChannels` is 7, and for 7.1 it is `0xE3F`, with 9 bits set,
while `numChannels` is 8. `numChannels` is also the channel factor of the
frame size stored by `_opensl_allocate_voice`. -/
theorem setupFormat_mask_bits (depth freq size : Nat) :
    ((setupFormat ⟨depth, ALLEGRO_CHANNEL_CONF_1, freq, size⟩).channelMask.map maskBits =
      some (setupFormat ⟨depth, ALLEGRO_CHANNEL_CONF_1, freq, size⟩).numChannels) ∧
    ((setupFormat ⟨depth, ALLEGRO_CHANNEL_CONF_2, freq, size⟩).channelMask.map maskBits =
      some (setupFormat ⟨depth, ALLEGRO_CHANNEL_CONF_2, freq, size⟩).numChannels) ∧
    ((setupFormat ⟨depth, ALLEGRO_CHANNEL_CONF_3, freq, size⟩).channelMask.map maskBits =
      some (setupFormat ⟨depth, ALLEGRO_CHANNEL_CONF_3, freq, size⟩).numChannels) ∧
    ((setupFormat ⟨depth, ALLEGRO_CHANNEL_CONF_4, freq, size⟩).channelMask.map maskBits =
      some (setupFormat ⟨depth, ALLEGRO_CHANNEL_CONF_4, freq, size⟩).numChannels) ∧
    ((setupFormat ⟨depth, ALLEGRO_CHANNEL_CONF_5_1, freq, size⟩).channelMask.map maskBits =
      some (setupFormat ⟨depth, ALLEGRO_CHANNEL_CONF_5_1, freq, size⟩).numChannels) ∧
    ((setupFormat ⟨depth, ALLEGRO_CHANNEL_CONF_6_1, freq, size⟩).channelMask = some 0x63F ∧
      maskBits 0x63F = 8 ∧
      (setupFormat ⟨depth, ALLEGRO_CHANNEL_CONF_6_1, freq, size⟩).numChannels = 7) ∧
    ((setupFormat ⟨depth, ALLEGRO_CHANNEL_CONF_7_1, freq, size⟩).channelMask = some 0xE3F ∧
      maskBits 0xE3F = 9 ∧
      (setupFormat ⟨depth, ALLEGRO_CHANNEL_CONF_7_1, freq, size⟩).numChannels = 8) ∧
    (∀ (conf mixer : Nat),
      (_opensl_allocate_voice (some mixer) ⟨depth, conf, freq, size⟩).2.map
          OpenSLData.frame_size =
        some (wrap32 (((setupFormat ⟨depth, conf, freq, size⟩).numChannels *
          al_get_audio_depth_size depth : Nat) : Int))) := by
  refine ⟨?_, ?_, ?_, ?_, ?_, ⟨rfl, by decide, channel_counts.2.2.2.2.2.1⟩,
    ⟨rfl, by decide, channel_counts.2.2.2.2.2.2⟩, fun _ _ => rfl⟩
  · exact congrArg some (Eq.trans (by decide) channel_counts.1.symm)
  · exact congrArg some (Eq.trans (by decide) channel_counts.2.1.symm)
  · exact congrArg some (Eq.trans (by decide) channel_counts.2.2.1.symm)
  · exact congrArg some (Eq.trans (by decide) channel_counts.2.2.2.1.symm)
  · exact congrArg some (Eq.trans (by decide) channel_counts.2.2.2.2.1.symm)

/-! ## C5, C6, C7: return codes of the driver entries -/

/-- C5, evaluated on the code. `_opensl_start_voice` returns 1 whenever it
returns, also when every native call succeeds (the player is stored, the
callback registered and the play state set to playing before it returns 1).
But it does not return for every outcome of the native calls: when the lookup
of the engine interface fails, `createAudioPlayer` calls through the `NULL`
that `getEngine` returned, and when the lookup of the play interface fails
after the buffer-queue lookup succeeded, `SetPlayState` is called through the
unset `play`. -/
theorem start_voice_return (r : StartResults) (engine : Nat) (calls : List NativeCall)
    (voice : ALLEGRO_VOICE) (extra : OpenSLData) :
    ((_opensl_start_voice r ⟨some engine, calls⟩ voice extra).map Outcome.ret =
      if r.getEngine ≠ SL_RESULT_SUCCESS then none
      else if r.createAudioPlayer = SL_RESULT_SUCCESS ∧
          r.realizePlayer = SL_RESULT_SUCCESS ∧ r.getBufferQueue = SL_RESULT_SUCCESS ∧
          r.getPlay ≠ SL_RESULT_SUCCESS then none
      else some 1) ∧
    _opensl_start_voice
        { r with getEngine := SL_RESULT_PRECONDITIONS_VIOLATED }
        ⟨some engine, calls⟩ voice extra = none ∧
    _opensl_start_voice
        { r with
          getEngine := SL_RESULT_SUCCESS
          createAudioPlayer := SL_RESULT_SUCCESS
          realizePlayer := SL_RESULT_SUCCESS
          getBufferQueue := SL_RESULT_SUCCESS
          getPlay := SL_RESULT_PRECONDITIONS_VIOLATED }
        ⟨some engine, calls⟩ voice extra = none ∧
    _opensl_start_voice
        { r with
          getEngine := SL_RESULT_SUCCESS
          createAudioPlayer := SL_RESULT_SUCCESS
          realizePlayer := SL_RESULT_SUCCESS
          getBufferQueue := SL_RESULT_SUCCESS
          registerCallback := SL_RESULT_SUCCESS
          getPlay := SL_RESULT_SUCCESS
          setPlayState := SL_RESULT_SUCCESS }
        ⟨some engine, calls⟩ voice extra =
      some ⟨1,
        ⟨some engine,
          calls ++
            [NativeCall.GetInterface InterfaceID.SL_IID_ENGINE,
             NativeCall.CreateAudioPlayer (setupFormat voice) 2 extra.output,
             NativeCall.Realize,
             NativeCall.GetInterface InterfaceID.SL_IID_BUFFERQUEUE,
             NativeCall.RegisterCallback,
             NativeCall.GetInterface InterfaceID.SL_IID_PLAY,
             NativeCall.SetPlayState SL_PLAYSTATE_PLAYING]⟩,
        voice, { extra with player := some r.player }⟩ := by
  refine ⟨?_, ?_, ?_, ?_⟩
  · by_cases h1 : r.getEngine = SL_RESULT_SUCCESS <;>
      by_cases h2 : r.createAudioPlayer = SL_RESULT_SUCCESS <;>
      by_cases h3 : r.realizePlayer = SL_RESULT_SUCCESS <;>
      by_cases h4 : r.getBufferQueue = SL_RESULT_SUCCESS <;>
      by_cases h5 : r.getPlay = SL_RESULT_SUCCESS <;>
      simp [_opensl_start_voice, getEngine, createAudioPlayer, h1, h2, h3, h4, h5]
  · simp [_opensl_start_voice, getEngine, createAudioPlayer, SL_RESULT_PRECONDITIONS_VIOLATED,
      SL_RESULT_SUCCESS]
  · simp [_opensl_start_voice, getEngine, createAudioPlayer, SL_RESULT_PRECONDITIONS_VIOLATED,
      SL_RESULT_SUCCESS]
  · simp [_opensl_start_voice, getEngine, createAudioPlayer]

/-- C6. The four unimplemented entries report failure whatever they are given
and touch nothing: `_opensl_stop_voice` and `_opensl_set_voice_position`
return 1, `_opensl_voice_is_playing` returns `false`,
`_opensl_get_voice_position` returns 0, and each leaves the engine handle, the
list of native calls, the voice and its per-voice data as they were. -/
theorem unimplemented_entries_fail (d : Driver) (voice : ALLEGRO_VOICE)
    (extra : OpenSLData) (val : Nat) :
    _opensl_stop_voice d voice extra = ⟨1, d, voice, extra⟩ ∧
    _opensl_voice_is_playing d voice extra = ⟨false, d, voice, extra⟩ ∧
    _opensl_get_voice_position d voice extra = ⟨0, d, voice, extra⟩ ∧
    _opensl_set_voice_position d voice extra val = ⟨1, d, voice, extra⟩ ∧
    (_opensl_stop_voice d voice extra).driver.calls = d.calls ∧
    (_opensl_voice_is_playing d voice extra).driver.calls = d.calls ∧
    (_opensl_get_voice_position d voice extra).driver.calls = d.calls ∧
    (_opensl_set_voice_position d voice extra val).driver.calls = d.calls :=
  ⟨rfl, rfl, rfl, rfl, rfl, rfl, rfl, rfl⟩

/-- C7. `_opensl_open` returns 1 when `slCreateEngine` fails or when `GetState`
fails, and 0 in every other case; the results of `Realize` and `Resume` do not
change its return value. -/
theorem open_return_code (r : OpenResults) (d : Driver) :
    (_opensl_open r d).1 =
      (if r.createEngine ≠ SL_RESULT_SUCCESS ∨ r.getState ≠ SL_RESULT_SUCCESS then 1
       else 0) ∧
    (∀ realize resume : SLresult,
      (_opensl_open { r with realize := realize, resume := resume } d).1 =
        (_opensl_open r d).1) := by
  have key : ∀ r : OpenResults, (_opensl_open r d).1 =
      (if r.createEngine ≠ SL_RESULT_SUCCESS ∨ r.getState ≠ SL_RESULT_SUCCESS then 1
       else 0) := by
    intro r
    unfold _opensl_open
    by_cases h1 : r.createEngine = SL_RESULT_SUCCESS <;>
      by_cases h2 : r.getState = SL_RESULT_SUCCESS <;> simp [h1, h2]
  refine ⟨key r, fun a b => ?_⟩
  rw [key, key]

end OpenSL

